import Mathlib

/-!
Verification development for the Retrieval-And-Structure repository.

The repository contains two source artifacts: a run-configuration shell
script invoking the pipeline entry point, and a notebook utility
converting a JSON question file into a CSV of supporting documents.
The planning-and-orchestration core described by the design document is
not present among the source files, so it is modelled here from the
design document; the notebook converter is embedded directly from its
source.
-/

set_option maxHeartbeats 1000000

/-- A knowledge triple: subject, predicate, object strings. -/
structure Triple where
  subj : String
  pred : String
  obj : String
deriving DecidableEq

/-- One item of the input JSON of convert_json_to_csv: a question record
whose supporting_docs key, when present, maps titles to lists of document
strings.  The key may be absent, modelled by Option; the association list
keeps the insertion order of dict values. -/
structure HotpotItem where
  supporting_docs : Option (List (String × List String))

/-- Embeds the collection loop of convert_json_to_csv: for each item, if
the supporting_docs key is present, extend the accumulator with each
docs list in values order. -/
def extractSupportingDocs (data : List HotpotItem) : List String :=
  data.foldl
    (fun acc item =>
      match item.supporting_docs with
      | some sd => sd.foldl (fun a p => a ++ p.2) acc
      | none => acc)
    []

/-- Embeds convert_json_to_csv of src/text_to_triples/convert.ipynb as
the list of CSV rows it writes: a header row followed by one singleton
row per collected non-empty document. -/
def convert_json_to_csv (data : List HotpotItem) : List (List String) :=
  ["text"] :: (((extractSupportingDocs data).filter (fun d => d ≠ "")).map (fun d => [d]))

/-- The documents contributed by one item, per the claim wording: all
documents of the supporting_docs values in order, nothing when the key is
absent. -/
def itemDocs (item : HotpotItem) : List String :=
  match item.supporting_docs with
  | some sd => (sd.map Prod.snd).flatten
  | none => []

/-- Specification-level characterization of the CSV rows, written from
the claim wording: header row, then the non-empty strings obtained by
concatenating documents in input order of items and then in order of the
supporting_docs values of each item. -/
def convertSpecRows (data : List HotpotItem) : List (List String) :=
  ["text"] :: ((((data.map itemDocs).flatten).filter (fun d => d ≠ "")).map (fun d => [d]))

/-- Modelled from the spec: the Question input of the missing run_ras.py
core — raw text, dataset tag, maximum answer length. -/
structure Question where
  text : String
  dataset : String
  max_answer_length : Nat
deriving DecidableEq

/-- Modelled from the spec: the EvidenceState of the missing Orchestrator
— ordered passage sequence, extracted triple set (kept as a
duplicate-free list in insertion order), and the step counter. -/
structure EvidenceState where
  passages : List String
  triples : List Triple
  step : Nat
deriving DecidableEq

/-- The empty evidence state a question starts from. -/
def EvidenceState.empty : EvidenceState :=
  EvidenceState.mk [] [] 0

/-- Evidence growth order: the step counter does not decrease, no triple
is dropped, and the old passage sequence stays an unerased initial
segment of the new one. -/
def EvidenceState.le (a b : EvidenceState) : Prop :=
  a.step ≤ b.step ∧ (∀ t, t ∈ a.triples → t ∈ b.triples) ∧
    ∃ rest, b.passages = a.passages ++ rest

/-- Modelled from the spec: the Decision sum type of the missing Planner
— Retrieve with a query, Extract with a passage, or Answer. -/
inductive Decision where
  | retrieve (query : String)
  | extract (passage : String)
  | answer
deriving DecidableEq

/-- Modelled from the spec: the loaded parameters of a Trainable planner
— a versioned parameter blob decoded into weights. -/
structure Params where
  version : Nat
  weights : List Int
deriving DecidableEq

/-- Modelled from the spec: the PlannerPolicy sum type of the missing
core — Frozen with no external state, or Trainable with loaded
parameters. -/
inductive PlannerPolicy where
  | frozen
  | trainable (ps : Params)
deriving DecidableEq

/-- Modelled from the spec: a checkpoint file on disk — a readability
flag and an opaque content blob. -/
structure CheckpointFile where
  readable : Bool
  content : List Nat

/-- Modelled from the spec: the file system as seen by checkpoint
loading — a map from paths to files, absent paths giving none. -/
def FileSys : Type := String → Option CheckpointFile

/-- Modelled from the spec: decoding a checkpoint blob into the expected
parameter schema — a version, a weight count, then exactly that many
weights; anything else is a schema mismatch. -/
def parseParams : List Nat → Option Params
  | v :: n :: rest =>
    if rest.length = n then some (Params.mk v (rest.map Int.ofNat)) else none
  | _ => none

/-- Modelled from the spec: the PolicyLoadError taxonomy — checkpoint
path missing, file unreadable, or schema mismatch. -/
inductive PolicyLoadError where
  | missing
  | unreadable
  | schemaMismatch
deriving DecidableEq

/-- Modelled from the spec: the ConfigurationError taxonomy — a
trainable planner configured without a checkpoint path. -/
inductive ConfigurationError where
  | missingCheckpoint
deriving DecidableEq

/-- Modelled from the spec: a fatal startup error of the missing batch
entry point — a configuration error or a policy load error. -/
inductive FatalError where
  | config (e : ConfigurationError)
  | load (e : PolicyLoadError)
deriving DecidableEq

/-- Modelled from the spec: the configuration surface the core consumes
— the planner frozen flag, the optional checkpoint path, and the step
budget of the loop. -/
structure RunConfig where
  planner_frozen : Bool
  planner_checkpoint : Option String
  step_budget : Nat

/-- Modelled from the spec: configuration validation of the missing
entry point — a trainable planner without a checkpoint path is a fatal
ConfigurationError raised before any question is processed. -/
def validateConfig (c : RunConfig) : Except ConfigurationError Unit :=
  if c.planner_frozen = false ∧ c.planner_checkpoint = Option.none then
    Except.error ConfigurationError.missingCheckpoint
  else Except.ok ()

/-- Modelled from the spec: Trainable checkpoint loading at policy
construction — fails fast with a PolicyLoadError when the path does not
exist, the file is unreadable, or the blob does not decode into the
expected schema; on success yields the Trainable policy, never Frozen. -/
def loadTrainablePolicy (fs : FileSys) (path : String) :
    Except PolicyLoadError PlannerPolicy :=
  match fs path with
  | none => Except.error PolicyLoadError.missing
  | some file =>
    if file.readable = false then Except.error PolicyLoadError.unreadable
    else
      match parseParams file.content with
      | none => Except.error PolicyLoadError.schemaMismatch
      | some ps => Except.ok (PlannerPolicy.trainable ps)

/-- Modelled from the spec: policy construction from configuration —
Frozen needs nothing; Trainable loads its checkpoint, and a missing path
is a ConfigurationError. -/
def mkPolicy (fs : FileSys) (c : RunConfig) : Except FatalError PlannerPolicy :=
  if c.planner_frozen then Except.ok PlannerPolicy.frozen
  else
    match c.planner_checkpoint with
    | some path => (loadTrainablePolicy fs path).mapError FatalError.load
    | none => Except.error (FatalError.config ConfigurationError.missingCheckpoint)

/-- Modelled from the spec: the fixed depth up to which the Frozen
policy follows its Retrieve, Extract, Answer rotation. -/
def frozenDepth : Nat := 10

/-- Modelled from the spec: the Frozen decision rule — a pure function
of the question and the evidence state that alternates Retrieve,
Extract, Answer by step count up to a fixed depth, and answers once a
failure marker is present. -/
def frozenDecide (q : Question) (st : EvidenceState) (marker : Option Decision) :
    Decision :=
  match marker with
  | some _ => Decision.answer
  | none =>
    if frozenDepth ≤ st.step then Decision.answer
    else
      match st.step % 3 with
      | 0 => Decision.retrieve q.text
      | 1 => Decision.extract (st.passages.headD (""))
      | _ => Decision.answer

/-- Modelled from the spec: the Trainable decision rule — consults the
loaded parameters (read only).  With an even leading weight it follows
the Frozen rotation; with an odd leading weight it keeps retrieving a
parameter-derived query up to the depth bound, ignoring the failure
marker (the Planner may, not must, choose a different action). -/
def trainableDecide (ps : Params) (q : Question) (st : EvidenceState)
    (marker : Option Decision) : Decision :=
  if (ps.weights.headD 0) % 2 = 0 then frozenDecide q st marker
  else if frozenDepth ≤ st.step then Decision.answer
  else Decision.retrieve (q.text ++ " v" ++ toString ps.version)

/-- Modelled from the spec: the Planner decide capability — maps the
policy, question, state and failure marker to exactly one Decision,
returning the post-call policy to make mutation observable (the policy
is never mutated). -/
def Planner.decide (p : PlannerPolicy) (q : Question) (st : EvidenceState)
    (marker : Option Decision) : Decision × PlannerPolicy :=
  match p with
  | PlannerPolicy.frozen => (frozenDecide q st marker, PlannerPolicy.frozen)
  | PlannerPolicy.trainable ps => (trainableDecide ps q st marker, PlannerPolicy.trainable ps)

/-- Modelled from the spec: the external leaf components — the
retriever and triple extractor may fail (none), the answer generator is
the contracted bounded-length text producer. -/
structure Components where
  search : String → Option (List String)
  extractT : String → Option (List Triple)
  answerGen : String → EvidenceState → Nat → String

/-- Modelled from the spec: the terminal Answer — text paired with the
EvidenceState snapshot that produced it. -/
structure Answer where
  text : String
  snapshot : EvidenceState
deriving DecidableEq

/-- Modelled from the spec: the Answer dispatch — calls the answer
generator with the question text, the accumulated evidence and the
maximum answer length of the question. -/
def dispatchAnswer (comps : Components) (q : Question) (st : EvidenceState) : Answer :=
  Answer.mk (comps.answerGen q.text st q.max_answer_length) st

/-- Modelled from the spec: merging extracted triples into the state by
set union — each new triple is appended only if not already present, so
no duplicate enters and no old triple leaves. -/
def mergeTriples (old new : List Triple) : List Triple :=
  new.foldl (fun acc t => if t ∈ acc then acc else acc ++ [t]) old

/-- Modelled from the spec: dispatching a non-Answer decision to its
leaf component — on success the updated evidence state (passages
appended or triples merged, step counter incremented), on leaf failure
none.  An Answer decision leaves the state unchanged. -/
def applyDecision (comps : Components) (st : EvidenceState) : Decision → Option EvidenceState
  | Decision.retrieve query =>
    match comps.search query with
    | some ps => some (EvidenceState.mk (st.passages ++ ps) st.triples (st.step + 1))
    | none => none
  | Decision.extract passage =>
    match comps.extractT passage with
    | some ts => some (EvidenceState.mk st.passages (mergeTriples st.triples ts) (st.step + 1))
    | none => none
  | Decision.answer => some st

/-- One logged loop iteration: the dispatched decision, whether the leaf
call failed, and the evidence state before and after the step. -/
structure StepLog where
  decision : Decision
  failed : Bool
  stateBefore : EvidenceState
  stateAfter : EvidenceState
deriving DecidableEq

/-- Modelled from the spec: the Orchestrator loop of the missing
runQuestion, with the remaining budget as fuel.  Each iteration asks the
Planner for one Decision; Answer dispatches the generator and stops; a
successful Retrieve or Extract updates the evidence and clears the
failure marker; a failed leaf call keeps the evidence, and when the same
action already failed on this state the fallback Answer path is forced,
otherwise the Planner is re-invoked with a failure marker.  Exhausted
fuel forces the Answer dispatch on the accumulated evidence. -/
def runLoop (comps : Components) (pol : PlannerPolicy) (q : Question) :
    Nat → EvidenceState → Option Decision → Answer × List StepLog
  | 0, st, _ => (dispatchAnswer comps q st, [])
  | Nat.succ fuel, st, marker =>
    match (Planner.decide pol q st marker).1 with
    | Decision.answer =>
      (dispatchAnswer comps q st, [StepLog.mk Decision.answer false st st])
    | d =>
      match applyDecision comps st d with
      | some st' =>
        ((runLoop comps pol q fuel st' Option.none).1,
          StepLog.mk d false st st' :: (runLoop comps pol q fuel st' Option.none).2)
      | none =>
        if marker = some d then
          (dispatchAnswer comps q st, [StepLog.mk d true st st])
        else
          ((runLoop comps pol q fuel st (some d)).1,
            StepLog.mk d true st st :: (runLoop comps pol q fuel st (some d)).2)

/-- Modelled from the spec: runQuestion — runs the loop on a fresh empty
EvidenceState with the configured step budget as fuel, returning the
Answer and the per-step log. -/
def runQuestion (comps : Components) (pol : PlannerPolicy) (q : Question)
    (c : RunConfig) : Answer × List StepLog :=
  runLoop comps pol q c.step_budget EvidenceState.empty Option.none

/-- The evidence state a run ends with: the state after the last logged
step, or the initial state when nothing was logged. -/
def finalState (init : EvidenceState) : List StepLog → EvidenceState
  | [] => init
  | e :: tr => finalState e.stateAfter tr

/-- The no-third-attempt trace property: scanning the log with the
pending failure marker, an entry that fails while the same decision
already failed on this state ends the trace. -/
def noThirdFrom : Option Decision → List StepLog → Prop
  | _, [] => True
  | m, e :: rest =>
    (e.failed = true → m = some e.decision → rest = []) ∧
      noThirdFrom (if e.failed then some e.decision else Option.none) rest

/-- Modelled from the spec: the batch entry point — validates the
configuration, constructs the policy once (loading the checkpoint for a
Trainable policy), and only then processes the questions; any fatal
error aborts before any question is processed. -/
def runProcess (fs : FileSys) (c : RunConfig) (comps : Components)
    (qs : List Question) : Except FatalError (List Answer) :=
  match validateConfig c with
  | Except.error e => Except.error (FatalError.config e)
  | Except.ok _ =>
    match mkPolicy fs c with
    | Except.error e => Except.error e
    | Except.ok pol => Except.ok (qs.map (fun q => (runQuestion comps pol q c).1))

/-- Concrete components whose retriever and extractor always fail,
used to exercise the failure handling of the loop. -/
def wFailComps : Components :=
  Components.mk (fun _ => Option.none) (fun _ => Option.none) (fun _ _ _ => "a")

/-- Concrete components whose answer generator respects the length
contract: empty text on a zero bound, one character otherwise. -/
def wBoundComps : Components :=
  Components.mk (fun _ => Option.none) (fun _ => Option.none)
    (fun _ _ n => if n = 0 then ("") else ("x"))

/-- A concrete question with a positive maximum answer length. -/
def wQ : Question := Question.mk ("who wrote X") ("popqa") 5

/-- A concrete frozen-planner configuration with step budget 3. -/
def wCfg : RunConfig := RunConfig.mk true Option.none 3

/-- A concrete frozen-planner configuration with step budget 1. -/
def wCfg1 : RunConfig := RunConfig.mk true Option.none 1

/-- A concrete file system with no files at all. -/
def wFsEmpty : FileSys := fun _ => Option.none

/-- A concrete trainable policy whose leading weight is odd, so its
decide rule repeats the same retrieval and ignores the failure marker. -/
def wPolOdd : PlannerPolicy := PlannerPolicy.trainable (Params.mk 1 [1])

/-! ## Helper lemmas -/

theorem foldl_extend_eq (sd : List (String × List String)) :
    ∀ a : List String,
      sd.foldl (fun a p => a ++ p.2) a = a ++ (sd.map Prod.snd).flatten := by
  induction sd with
  | nil => intro a; simp
  | cons p ps ih => intro a; simp [List.foldl_cons, ih, List.append_assoc]

theorem extractSupportingDocs_eq_aux (data : List HotpotItem) :
    ∀ acc : List String,
      data.foldl
        (fun acc item =>
          match item.supporting_docs with
          | some sd => sd.foldl (fun a p => a ++ p.2) acc
          | none => acc)
        acc = acc ++ (data.map itemDocs).flatten := by
  induction data with
  | nil => intro acc; simp
  | cons item rest ih =>
    intro acc
    rw [List.foldl_cons]
    cases h : item.supporting_docs with
    | none =>
      simp only [h]
      rw [ih]
      simp [itemDocs, h]
    | some sd =>
      simp only [h]
      rw [ih, foldl_extend_eq]
      simp [itemDocs, h, List.append_assoc]

theorem extractSupportingDocs_eq (data : List HotpotItem) :
    extractSupportingDocs data = (data.map itemDocs).flatten := by
  simpa [extractSupportingDocs] using extractSupportingDocs_eq_aux data []

/-- C9: convert_json_to_csv writes exactly the header row followed by
the non-empty documents collected in item order and then in
supporting_docs values order, duplicates kept. -/
theorem convert_json_to_csv_spec (data : List HotpotItem) :
    convert_json_to_csv data = convertSpecRows data := by
  simp [convert_json_to_csv, convertSpecRows, extractSupportingDocs_eq]

/-- C10: an item without the supporting_docs key contributes no rows;
the conversion is a total function on such inputs and produces the same
CSV as if the item were absent. -/
theorem convert_json_to_csv_total_missing_key (pre post : List HotpotItem) :
    convert_json_to_csv (pre ++ HotpotItem.mk Option.none :: post) =
      convert_json_to_csv (pre ++ post) := by
  simp [convert_json_to_csv, extractSupportingDocs_eq, itemDocs]

theorem EvidenceState.le_refl (st : EvidenceState) : EvidenceState.le st st :=
  ⟨Nat.le_refl _, fun _ h => h, [], by simp⟩

theorem mem_mergeTriples_left (new : List Triple) :
    ∀ old t, t ∈ old → t ∈ mergeTriples old new := by
  induction new with
  | nil => intro old t h; simpa [mergeTriples] using h
  | cons n ns ih =>
    intro old t h
    have hst : mergeTriples old (n :: ns) =
        mergeTriples (if n ∈ old then old else old ++ [n]) ns := rfl
    rw [hst]
    apply ih
    by_cases hn : n ∈ old
    · simpa [hn] using h
    · simp only [hn, if_false]
      exact List.mem_append_left _ h

theorem applyDecision_le (comps : Components) (st : EvidenceState) (d : Decision)
    (st' : EvidenceState) (h : applyDecision comps st d = some st') :
    EvidenceState.le st st' := by
  cases d with
  | retrieve query =>
    simp only [applyDecision] at h
    cases hs : comps.search query with
    | none => rw [hs] at h; cases h
    | some ps =>
      rw [hs] at h
      cases h
      exact ⟨Nat.le_succ _, fun _ ht => ht, ps, rfl⟩
  | extract passage =>
    simp only [applyDecision] at h
    cases hs : comps.extractT passage with
    | none => rw [hs] at h; cases h
    | some ts =>
      rw [hs] at h
      cases h
      exact ⟨Nat.le_succ _, fun t ht => mem_mergeTriples_left ts _ t ht, [], by simp⟩
  | answer =>
    simp only [applyDecision] at h
    cases h
    exact EvidenceState.le_refl st

theorem runLoop_length (comps : Components) (pol : PlannerPolicy) (q : Question) :
    ∀ fuel st marker, (runLoop comps pol q fuel st marker).2.length ≤ fuel := by
  intro fuel
  induction fuel with
  | zero => intro st marker; simp [runLoop]
  | succ n ih =>
    intro st marker
    simp only [runLoop]
    split
    · simp
    · split
      · simp only [List.length_cons]
        exact Nat.succ_le_succ (ih _ _)
      · split
        · simp
        · simp only [List.length_cons]
          exact Nat.succ_le_succ (ih _ _)

theorem runLoop_chain (comps : Components) (pol : PlannerPolicy) (q : Question) :
    ∀ fuel st marker,
      List.Chain EvidenceState.le st
        (((runLoop comps pol q fuel st marker).2).map (fun e => e.stateAfter)) := by
  intro fuel
  induction fuel with
  | zero => intro st marker; simp [runLoop]
  | succ n ih =>
    intro st marker
    simp only [runLoop]
    split
    · exact List.Chain.cons (EvidenceState.le_refl st) List.Chain.nil
    · split
      · rename_i st' heq
        exact List.Chain.cons (applyDecision_le _ _ _ _ heq) (ih _ _)
      · split
        · exact List.Chain.cons (EvidenceState.le_refl st) List.Chain.nil
        · exact List.Chain.cons (EvidenceState.le_refl st) (ih _ _)

theorem runLoop_noThird (comps : Components) (pol : PlannerPolicy) (q : Question) :
    ∀ fuel st marker, noThirdFrom marker (runLoop comps pol q fuel st marker).2 := by
  intro fuel
  induction fuel with
  | zero => intro st marker; simp [runLoop, noThirdFrom]
  | succ n ih =>
    intro st marker
    simp only [runLoop]
    split
    · simp [noThirdFrom]
    · split
      · rename_i st' heq
        simp only [noThirdFrom]
        refine ⟨by simp, ?_⟩
        simpa using ih st' Option.none
      · split
        · simp [noThirdFrom]
        · rename_i hmark
          simp only [noThirdFrom]
          refine ⟨fun _ hm => absurd hm hmark, ?_⟩
          simpa using ih st _

theorem runLoop_failed_unchanged (comps : Components) (pol : PlannerPolicy) (q : Question) :
    ∀ fuel st marker e, e ∈ (runLoop comps pol q fuel st marker).2 →
      e.failed = true → e.stateAfter = e.stateBefore := by
  intro fuel
  induction fuel with
  | zero => intro st marker e he _; simp [runLoop] at he
  | succ n ih =>
    intro st marker e he hf
    simp only [runLoop] at he
    split at he
    · rw [List.mem_singleton] at he; subst he; simp at hf
    · split at he
      · rcases List.mem_cons.mp he with h1 | h2
        · subst h1; simp at hf
        · exact ih _ _ _ h2 hf
      · split at he
        · rw [List.mem_singleton] at he; subst he; rfl
        · rcases List.mem_cons.mp he with h1 | h2
          · subst h1; rfl
          · exact ih _ _ _ h2 hf

theorem runLoop_dispatch (comps : Components) (pol : PlannerPolicy) (q : Question) :
    ∀ fuel st marker,
      (runLoop comps pol q fuel st marker).1 =
        dispatchAnswer comps q (finalState st (runLoop comps pol q fuel st marker).2) := by
  intro fuel
  induction fuel with
  | zero => intro st marker; simp [runLoop, finalState]
  | succ n ih =>
    intro st marker
    simp only [runLoop]
    split
    · simp [finalState]
    · split
      · rename_i st' heq
        simpa [finalState] using ih st' Option.none
      · split
        · simp [finalState]
        · simpa [finalState] using ih st _

/-! ## Claim theorems -/

/-- C1: constructing a Trainable policy with a checkpoint path that does
not exist, is unreadable, or does not match the parameter schema yields
a PolicyLoadError at construction time; the whole run then aborts before
any question is processed, and loading never yields the Frozen policy. -/
theorem loadTrainablePolicy_fails_fast (fs : FileSys) (path : String)
    (h : fs path = Option.none ∨
      (∃ f, fs path = some f ∧ f.readable = false) ∨
      (∃ f, fs path = some f ∧ f.readable = true ∧ parseParams f.content = Option.none)) :
    (∃ e, loadTrainablePolicy fs path = Except.error e) ∧
    (∀ c comps qs, c.planner_frozen = false → c.planner_checkpoint = some path →
      ∃ e, runProcess fs c comps qs = Except.error (FatalError.load e)) ∧
    (∀ fs2 path2, loadTrainablePolicy fs2 path2 ≠ Except.ok PlannerPolicy.frozen) := by
  have hA : ∃ e, loadTrainablePolicy fs path = Except.error e := by
    rcases h with h1 | ⟨f, hf, hr⟩ | ⟨f, hf, hr, hp⟩
    · exact ⟨PolicyLoadError.missing, by simp [loadTrainablePolicy, h1]⟩
    · exact ⟨PolicyLoadError.unreadable, by simp [loadTrainablePolicy, hf, hr]⟩
    · exact ⟨PolicyLoadError.schemaMismatch, by simp [loadTrainablePolicy, hf, hr, hp]⟩
  refine ⟨hA, ?_, ?_⟩
  · intro c comps qs hfr hck
    rcases hA with ⟨e, he⟩
    refine ⟨e, ?_⟩
    simp [runProcess, validateConfig, mkPolicy, hfr, hck, he, Except.mapError]
  · intro fs2 path2 hok
    unfold loadTrainablePolicy at hok
    split at hok
    · cases hok
    · split at hok
      · cases hok
      · split at hok
        · cases hok
        · simp at hok

/-- C1 witness: a trainable policy over an empty file system fails with
an error for every question list, and loading never yields Frozen. -/
theorem loadTrainablePolicy_fails_fast_witness :
    (∃ e, loadTrainablePolicy wFsEmpty ("latest_checkpoint.safetensors") = Except.error e) ∧
    (∀ c comps qs, c.planner_frozen = false →
      c.planner_checkpoint = some ("latest_checkpoint.safetensors") →
      ∃ e, runProcess wFsEmpty c comps qs = Except.error (FatalError.load e)) ∧
    (∀ fs2 path2, loadTrainablePolicy fs2 path2 ≠ Except.ok PlannerPolicy.frozen) :=
  loadTrainablePolicy_fails_fast wFsEmpty ("latest_checkpoint.safetensors") (Or.inl rfl)

/-- C2: for every question, components, configuration and policy, Frozen
or Trainable, the runQuestion loop performs at most the configured step
budget of logged iterations; the only remaining work is the single
forced Answer dispatch, so the run never loops indefinitely even if the
Planner never decides Answer. -/
theorem runQuestion_trace_bounded (comps : Components) (pol : PlannerPolicy)
    (q : Question) (c : RunConfig) :
    (runQuestion comps pol q c).2.length ≤ c.step_budget :=
  runLoop_length comps pol q c.step_budget EvidenceState.empty Option.none

/-- C3: runQuestion always yields an Answer: the returned value is
exactly the Answer dispatch applied to the final accumulated evidence
state, and with exhausted budget the loop forces the Answer dispatch on
the evidence accumulated so far, never dropping the question. -/
theorem runQuestion_always_answers (comps : Components) (pol : PlannerPolicy)
    (q : Question) (c : RunConfig) :
    (runQuestion comps pol q c).1 =
      dispatchAnswer comps q
        (finalState EvidenceState.empty (runQuestion comps pol q c).2) ∧
    (∀ st marker, runLoop comps pol q 0 st marker = (dispatchAnswer comps q st, [])) :=
  ⟨runLoop_dispatch comps pol q c.step_budget EvidenceState.empty Option.none,
    fun _ _ => rfl⟩

/-- C4: over one question run the evidence only grows: from the initial
empty state through every logged step, the step counter never decreases,
no triple is dropped, and each passage sequence extends the previous one
by appending, preserving retrieval order. -/
theorem runQuestion_evidence_monotone (comps : Components) (pol : PlannerPolicy)
    (q : Question) (c : RunConfig) :
    List.Chain EvidenceState.le EvidenceState.empty
      (((runQuestion comps pol q c).2).map (fun e => e.stateAfter)) :=
  runLoop_chain comps pol q c.step_budget EvidenceState.empty Option.none

/-- C5: when the same dispatched action fails twice consecutively on the
same evidence state the loop ends at once through the fallback Answer
path, so no third attempt of that action on that state occurs; and a
failed step leaves the evidence state unchanged. -/
theorem runQuestion_no_third_attempt (comps : Components) (pol : PlannerPolicy)
    (q : Question) (c : RunConfig) :
    noThirdFrom Option.none (runQuestion comps pol q c).2 ∧
    (∀ e, e ∈ (runQuestion comps pol q c).2 → e.failed = true →
      e.stateAfter = e.stateBefore) :=
  ⟨runLoop_noThird comps pol q c.step_budget EvidenceState.empty Option.none,
    fun e he hf =>
      runLoop_failed_unchanged comps pol q c.step_budget EvidenceState.empty
        Option.none e he hf⟩

/-- C5 witness: with always-failing leaf components and the odd-weight
trainable policy the run fails the same retrieval twice and stops; the
logged failed step keeps the evidence state unchanged. -/
theorem runQuestion_no_third_attempt_witness :
    noThirdFrom Option.none (runQuestion wFailComps wPolOdd wQ wCfg).2 ∧
    (StepLog.mk (Decision.retrieve ("who wrote X v1")) true EvidenceState.empty
        EvidenceState.empty).stateAfter =
      (StepLog.mk (Decision.retrieve ("who wrote X v1")) true EvidenceState.empty
        EvidenceState.empty).stateBefore :=
  ⟨(runQuestion_no_third_attempt wFailComps wPolOdd wQ wCfg).1,
    (runQuestion_no_third_attempt wFailComps wPolOdd wQ wCfg).2
      (StepLog.mk (Decision.retrieve ("who wrote X v1")) true EvidenceState.empty
        EvidenceState.empty)
      (by decide) rfl⟩

/-- C6: the Planner decide capability never mutates the policy it
consults, for the Frozen and the Trainable variant alike, and the Frozen
decision is a pure function of question, evidence state and failure
marker: equal inputs give equal decisions across invocations. -/
theorem planner_decide_pure (p : PlannerPolicy) (q q' : Question)
    (st st' : EvidenceState) (m m' : Option Decision)
    (hq : q = q') (hs : st = st') (hm : m = m') :
    (Planner.decide p q st m).2 = p ∧
    (Planner.decide PlannerPolicy.frozen q st m).1 =
      (Planner.decide PlannerPolicy.frozen q' st' m').1 := by
  subst hq; subst hs; subst hm
  refine ⟨?_, rfl⟩
  cases p <;> rfl

/-- C6 witness: the odd-weight trainable policy is returned unchanged by
decide, and the frozen decision agrees with itself on equal inputs. -/
theorem planner_decide_pure_witness :
    (Planner.decide wPolOdd wQ EvidenceState.empty Option.none).2 = wPolOdd ∧
    (Planner.decide PlannerPolicy.frozen wQ EvidenceState.empty Option.none).1 =
      (Planner.decide PlannerPolicy.frozen wQ EvidenceState.empty Option.none).1 :=
  planner_decide_pure wPolOdd wQ wQ EvidenceState.empty EvidenceState.empty
    Option.none Option.none rfl rfl rfl

/-- C7: under the answer-generator length contract, every Answer
returned by runQuestion, the forced one included, has text of length at
most the maximum answer length of the question; and when the generator
yields non-empty text on positive bounds, the Answer returned at step
budget 1 is non-empty. -/
theorem runQuestion_answer_length (comps : Components) (pol : PlannerPolicy)
    (q : Question) (c : RunConfig)
    (hlen : ∀ s st n, (comps.answerGen s st n).length ≤ n)
    (hne : ∀ s st n, 0 < n → comps.answerGen s st n ≠ "")
    (hpos : 0 < q.max_answer_length) :
    ((runQuestion comps pol q c).1).text.length ≤ q.max_answer_length ∧
    (c.step_budget = 1 → ((runQuestion comps pol q c).1).text ≠ "") := by
  have h1 : (runQuestion comps pol q c).1 =
      dispatchAnswer comps q
        (finalState EvidenceState.empty (runQuestion comps pol q c).2) :=
    runLoop_dispatch comps pol q c.step_budget EvidenceState.empty Option.none
  rw [h1]
  exact ⟨hlen _ _ _, fun _ => hne _ _ _ hpos⟩

/-- C7 witness: with the contract-respecting generator, a budget-1 run
returns non-empty text within the length bound of the question. -/
theorem runQuestion_answer_length_witness :
    ((runQuestion wBoundComps PlannerPolicy.frozen wQ wCfg1).1).text.length ≤
      wQ.max_answer_length ∧
    (wCfg1.step_budget = 1 →
      ((runQuestion wBoundComps PlannerPolicy.frozen wQ wCfg1).1).text ≠ "") :=
  runQuestion_answer_length wBoundComps PlannerPolicy.frozen wQ wCfg1
    (by
      intro s st n
      by_cases h : n = 0
      · simp [wBoundComps, h]
      · have h1 : ("x").length = 1 := rfl
        simp only [wBoundComps, h, if_false]
        rw [h1]
        omega)
    (by
      intro s st n hn
      have h0 : ¬ n = 0 := Nat.pos_iff_ne_zero.mp hn
      simp only [wBoundComps, h0, if_false]
      decide)
    (by decide)

/-- C8: a configuration selecting a trainable planner without a
checkpoint path fails validation with the fatal ConfigurationError, the
whole run aborts before any question is processed, and validation fails
exactly in that case: the checkpoint path is required iff trainable. -/
theorem config_checkpoint_required (c : RunConfig) :
    ((∃ e, validateConfig c = Except.error e) ↔
      (c.planner_frozen = false ∧ c.planner_checkpoint = Option.none)) ∧
    (c.planner_frozen = false → c.planner_checkpoint = Option.none →
      ∀ fs comps qs, runProcess fs c comps qs =
        Except.error (FatalError.config ConfigurationError.missingCheckpoint)) := by
  constructor
  · constructor
    · intro hex
      rcases hex with ⟨e, he⟩
      by_contra hcon
      rw [validateConfig, if_neg hcon] at he
      cases he
    · intro hcond
      exact ⟨ConfigurationError.missingCheckpoint, by simp [validateConfig, hcond]⟩
  · intro h1 h2 fs comps qs
    simp [runProcess, validateConfig, h1, h2]

/-- C8 witness: the trainable configuration with no checkpoint path is
rejected before processing an empty and a nonempty question batch. -/
theorem config_checkpoint_required_witness :
    (∃ e, validateConfig (RunConfig.mk false Option.none 3) = Except.error e) ∧
    runProcess wFsEmpty (RunConfig.mk false Option.none 3) wFailComps [wQ] =
      Except.error (FatalError.config ConfigurationError.missingCheckpoint) :=
  ⟨(config_checkpoint_required (RunConfig.mk false Option.none 3)).1.mpr ⟨rfl, rfl⟩,
    (config_checkpoint_required (RunConfig.mk false Option.none 3)).2 rfl rfl
      wFsEmpty wFailComps [wQ]⟩
